import Mathlib

/-!
Verification of the go-carbon persister (`persister/whisper.go`) against its
natural-language specification, via a shallow embedding of the package in Lean.

Machine integers are modelled as `Nat` (all crc32 intermediate values stay
below `2 ^ 32` by construction); fallible external calls are modelled by an
environment of boolean outcomes; the float64 arithmetic of the checkpoint is
modelled over `Rat` (all values involved — uint32 counters and their exact
quotients — are exactly representable in float64, so the rational model agrees
with the Go computation on the claims checked here).
-/

namespace GoCarbon
namespace Persister

/-! ### Metric-name bytes

Go's `[]byte(values.Metric)` conversion yields the UTF-8 bytes of the string.
-/

/-- UTF-8 encoding of a single character, as a list of byte values. -/
def utf8Bytes (c : Char) : List Nat :=
  let n := c.toNat
  if n < 0x80 then [n]
  else if n < 0x800 then [0xC0 + n / 0x40, 0x80 + n % 0x40]
  else if n < 0x10000 then
    [0xE0 + n / 0x1000, 0x80 + (n / 0x40) % 0x40, 0x80 + n % 0x40]
  else
    [0xF0 + n / 0x40000, 0x80 + (n / 0x1000) % 0x40, 0x80 + (n / 0x40) % 0x40,
     0x80 + n % 0x40]

/-- The UTF-8 byte sequence of a string (Go `[]byte(s)`). -/
def stringBytes (s : String) : List Nat :=
  (s.data.map utf8Bytes).flatten

/-! ### crc32 (IEEE)

Embedding of `hash/crc32.ChecksumIEEE` from the Go standard library: the
reflected CRC-32 with polynomial `0xEDB88320`, initial value `0xFFFFFFFF`,
final xor `0xFFFFFFFF`. All intermediate values are below `2 ^ 32`, so plain
`Nat` arithmetic coincides with uint32 arithmetic.
-/

def crc32Poly : Nat := 0xEDB88320

/-- One bit-step of the reflected CRC-32 update. -/
def crc32Round (crc : Nat) : Nat :=
  if crc % 2 = 1 then (crc / 2) ^^^ crc32Poly else crc / 2

/-- Eight bit-steps after xor-ing one input byte into the register. -/
def crc32UpdateByte (crc b : Nat) : Nat :=
  crc32Round^[8] (crc ^^^ b)

/-- Go `crc32.ChecksumIEEE` over a byte sequence. -/
def checksumIEEE (bytes : List Nat) : Nat :=
  (bytes.foldl crc32UpdateByte 0xFFFFFFFF) ^^^ 0xFFFFFFFF

/-- The shard selection of `shuffler` (whisper.go line 192):
`index := crc32.ChecksumIEEE([]byte(values.Metric)) % workers`. -/
def shufflerIndex (metric : String) (workers : Nat) : Nat :=
  checksumIEEE (stringBytes metric) % workers

/-! ### Store writer (`store`, whisper.go lines 101-156)

The external collaborators (whisper file library, filesystem, policy
matchers) are modelled by a `StoreEnv` of outcomes; `store` is embedded as a
function producing the ordered trace of observable events of one call plus a
flag telling whether a panic escapes the call.
-/

/-- Observable events of one `store` call, in program order. -/
inductive StoreEvent
  | openCall
  | mkdirCall
  | createCall
  | incrCreated
  | incrCommitedPoints (n : Nat)
  | incrUpdateOperations
  | appendCall (n : Nat)
  | panicRecovered
  | closeCall
  deriving DecidableEq, Repr

/-- Outcomes of the external calls made by one `store` call:
whether `app.Whisper.Open` succeeds, whether `p.schemas.match` and
`p.aggregation.match` return a policy (nil means no match), whether
`os.MkdirAll` and `app.Whisper.Create` succeed, and whether `w.UpdateMany`
raises a runtime panic. -/
structure StoreEnv where
  openOk : Bool
  schemaMatch : Bool
  aggrMatch : Bool
  mkdirOk : Bool
  createOk : Bool
  updatePanics : Bool
  deriving DecidableEq, Repr

/-- The two deferred actions registered in `store` once a handle exists:
`defer w.Close()` (line 148) and the anonymous function calling `recover`
(lines 150-154). -/
inductive DeferAction
  | closeHandle
  | recoverHandler
  deriving DecidableEq, Repr

/-- Runs a stack of deferred actions with a panic possibly in flight
(Go semantics: defers run in LIFO order, so the list is already reversed;
a deferred function that calls `recover` stops the propagation of an
in-flight panic; `Close` does not examine the panic state). Returns the
events emitted by the defers and whether a panic is still propagating
afterwards. -/
def runDefers : List DeferAction → Bool → List StoreEvent × Bool
  | [], panicking => ([], panicking)
  | DeferAction.recoverHandler :: rest, panicking =>
    let logged : List StoreEvent :=
      if panicking then [StoreEvent.panicRecovered] else []
    let next := runDefers rest false
    (logged ++ next.1, next.2)
  | DeferAction.closeHandle :: rest, panicking =>
    let next := runDefers rest panicking
    (StoreEvent.closeCall :: next.1, next.2)

/-- Lines 140-156 of `store`, entered with a valid handle `w`: build the
TimeSeriesPoint slice, increment `commitedPoints` by the batch length and
`updateOperations` by 1, register `defer w.Close()` then the recover defer,
and call `w.UpdateMany` (which may panic). Defers run in LIFO order when the
call unwinds, normally or by panic. -/
def appendSection (batchLen : Nat) (updatePanics : Bool) : List StoreEvent × Bool :=
  let body := [StoreEvent.incrCommitedPoints batchLen,
               StoreEvent.incrUpdateOperations,
               StoreEvent.appendCall batchLen]
  let defers := runDefers [DeferAction.recoverHandler, DeferAction.closeHandle]
                  updatePanics
  (body ++ defers.1, defers.2)

/-- The control flow of `store` (lines 101-156): try `Open`; on failure,
return early if the storage schema or the aggregation policy does not match;
otherwise `MkdirAll` (return on failure), `Create` (return on failure),
increment `created`, and fall through to the append section shared with the
open-succeeded path. Returns the event trace and the escaped-panic flag. -/
def store (env : StoreEnv) (batchLen : Nat) : List StoreEvent × Bool :=
  match env.openOk with
  | true =>
    let t := appendSection batchLen env.updatePanics
    (StoreEvent.openCall :: t.1, t.2)
  | false =>
    match env.schemaMatch with
    | false => ([StoreEvent.openCall], false)
    | true =>
      match env.aggrMatch with
      | false => ([StoreEvent.openCall], false)
      | true =>
        match env.mkdirOk with
        | false => ([StoreEvent.openCall, StoreEvent.mkdirCall], false)
        | true =>
          match env.createOk with
          | false => ([StoreEvent.openCall, StoreEvent.mkdirCall,
                       StoreEvent.createCall], false)
          | true =>
            let t := appendSection batchLen env.updatePanics
            (StoreEvent.openCall :: StoreEvent.mkdirCall ::
               StoreEvent.createCall :: StoreEvent.incrCreated :: t.1, t.2)

/-- Whether the `store` call obtains a backing-file handle: either `Open`
succeeds, or the whole creation path (both policies match, `MkdirAll` and
`Create` succeed) is taken. -/
def handleObtained (env : StoreEnv) : Bool :=
  env.openOk || (env.schemaMatch && env.aggrMatch && env.mkdirOk && env.createOk)

/-! Trace observations. -/

/-- Number of `MkdirAll` calls in a trace. -/
def countMkdir : List StoreEvent → Nat
  | [] => 0
  | StoreEvent.mkdirCall :: t => countMkdir t + 1
  | _ :: t => countMkdir t

/-- Number of `Create` calls in a trace. -/
def countCreate : List StoreEvent → Nat
  | [] => 0
  | StoreEvent.createCall :: t => countCreate t + 1
  | _ :: t => countCreate t

/-- Number of `UpdateMany` (append) calls in a trace. -/
def countAppend : List StoreEvent → Nat
  | [] => 0
  | StoreEvent.appendCall _ :: t => countAppend t + 1
  | _ :: t => countAppend t

/-- Number of `Close` calls in a trace. -/
def countClose : List StoreEvent → Nat
  | [] => 0
  | StoreEvent.closeCall :: t => countClose t + 1
  | _ :: t => countClose t

/-- Net change of the `created` counter over a trace. -/
def createdDelta : List StoreEvent → Nat
  | [] => 0
  | StoreEvent.incrCreated :: t => createdDelta t + 1
  | _ :: t => createdDelta t

/-- Net change of the `updateOperations` (commitedWrites) counter. -/
def updateOperationsDelta : List StoreEvent → Nat
  | [] => 0
  | StoreEvent.incrUpdateOperations :: t => updateOperationsDelta t + 1
  | _ :: t => updateOperationsDelta t

/-- Net change of the `commitedPoints` counter. -/
def commitedPointsDelta : List StoreEvent → Nat
  | [] => 0
  | StoreEvent.incrCommitedPoints n :: t => n + commitedPointsDelta t
  | _ :: t => commitedPointsDelta t

/-- Total number of file operations (directory creation, file creation,
append) in a trace. -/
def fileOpCount (t : List StoreEvent) : Nat :=
  countMkdir t + countCreate t + countAppend t

/-- Whether an event is an append call. -/
def isAppend : StoreEvent → Bool
  | StoreEvent.appendCall _ => true
  | _ => false

/-- The prefix of a trace strictly before its first append call. -/
def beforeAppend (t : List StoreEvent) : List StoreEvent :=
  t.takeWhile fun e => !isAppend e

/-- The last event of a trace, if any. -/
def lastEvent : List StoreEvent → Option StoreEvent
  | [] => none
  | [e] => some e
  | _ :: e :: t => lastEvent (e :: t)

/-! ### Worker loop (`worker`, whisper.go lines 158-171; `shuffler` has the
same loop shape, lines 185-195)

Go semantics of `break`: it terminates the innermost enclosing `for`,
`switch` or `select` statement. In `worker` the `break` of
`case <-p.exit: break` sits inside a `select`, so it terminates the `select`
statement only and the enclosing `for` continues with the next iteration. -/

/-- Whether the `break` statement in `case <-p.exit` of the worker loop
terminates the enclosing `for` loop. Per the Go specification it terminates
the innermost `for`, `switch` or `select`, which here is the `select`, so the
`for` loop does not terminate. -/
def breakInSelectExitsFor : Bool := false

/-- The select case chosen in one iteration of the worker loop. After `Stop`
closes `p.exit`, the `exitReady` case is always ready (receive on a closed
channel succeeds immediately), but Go's `select` picks uniformly among all
ready cases, so `recv` remains choosable whenever a batch is queued. -/
inductive WorkerCase
  | exitReady
  | inChanged
  | recv
  deriving DecidableEq, Repr

/-- One iteration of the worker loop body on the chosen case: returns
whether the loop terminates after this iteration and the number of batches
stored in it. -/
def workerIter : WorkerCase → Bool × Nat
  | WorkerCase.exitReady => (breakInSelectExitsFor, 0)
  | WorkerCase.inChanged => (false, 0)
  | WorkerCase.recv => (false, 1)

/-- Runs the worker loop along a finite schedule of chosen cases, counting
the batches stored; stops early if an iteration terminates the loop. -/
def workerRun : List WorkerCase → Nat
  | [] => 0
  | c :: rest =>
    let step := workerIter c
    if step.1 then step.2 else step.2 + workerRun rest

/-! ### Checkpoint (`doCheckpoint`, whisper.go lines 199-224)

The stat values are modelled over `Rat`; the Go code computes them in
float64, on which every uint32 counter value and the quotient 40/4 = 10 are
exact. -/

/-- The `pointsPerUpdate` stat: `commitedPoints / updateOperations` when
`updateOperations > 0`, else `0.0` (lines 216-220). -/
def pointsPerUpdate (updateOperations commitedPoints : Nat) : Rat :=
  if 0 < updateOperations then (commitedPoints : Rat) / (updateOperations : Rat)
  else 0

/-- The four stats emitted by `doCheckpoint`, in emission order
(lines 214-222), as pairs of counter name and value. -/
def doCheckpointStats (updateOperations commitedPoints created : Nat) :
    List (String × Rat) :=
  [("updateOperations", (updateOperations : Rat)),
   ("commitedPoints", (commitedPoints : Rat)),
   ("pointsPerUpdate", pointsPerUpdate updateOperations commitedPoints),
   ("created", (created : Rat))]

/-! ### File path (`store`, whisper.go line 102) -/

/-- Go `strings.Replace(s, ".", "/", -1)`: with a negative count every
occurrence of the one-character pattern is replaced, i.e. a character map
over the string. -/
def replaceDots (s : String) : String :=
  String.mk (s.data.map fun c => if c = '.' then '/' else c)

/-- Go `path/filepath.Join` (standard library, external collaborator),
modelled as joining the two elements with the path separator; the lexical
Clean pass of the real Join is orthogonal to the claims checked here. -/
def filepathJoin (a b : String) : String :=
  a ++ "/" ++ b

/-- Line 102: `filepath.Join(p.rootPath, strings.Replace(values.Metric, ".",
"/", -1) + ".wsp")`. -/
def storePath (rootPath metric : String) : String :=
  filepathJoin rootPath (replaceDots metric ++ ".wsp")

/-! ### Stat (whisper.go lines 93-99) -/

/-- A metric data point (spec section 3): metric name, value, timestamp in
Unix seconds. The float64 value is modelled over `Rat`; `Stat` passes it
through unchanged. -/
structure Point where
  metric : String
  value : Rat
  timestamp : Int
  deriving DecidableEq, Repr

/-- Modelled from the spec: `points.OnePoint` (repository package `points`,
not under src/) constructs a batch holding a single point with the given
metric name, value and timestamp (spec section 3, Point/Batch). -/
def OnePoint (metric : String) (value : Rat) (timestamp : Int) : List Point :=
  [{ metric := metric, value := value, timestamp := timestamp }]

/-- `Stat` (lines 93-99): sends `points.OnePoint(fmt.Sprintf("%spersister.%s",
p.graphPrefix, metric), value, app.Clock.Now().Unix())` into the inbound
channel. The graph prefix and the clock reading at emission are parameters
of the embedding. -/
def Stat (graphPre metric : String) (value : Rat) (nowUnix : Int) : List Point :=
  OnePoint (graphPre ++ "persister." ++ metric) value nowUnix

/-! ### Start (whisper.go lines 242-263) -/

/-- The component layout resulting from `Start`: whether the inbound channel
was wrapped by the throttle adapter, how many workers run, whether each
worker owns a newly created private channel, whether a shuffler runs, and
whether a solo worker consumes the (possibly throttled) inbound channel
directly. -/
structure StartLayout where
  throttleWrapped : Bool
  workerCount : Nat
  workersOnPrivateQueues : Bool
  hasShuffler : Bool
  soloWorkerOnInbound : Bool
  deriving DecidableEq, Repr

/-- `Start` (lines 242-263): wrap the inbound channel with `ThrottledOut`
iff `p.maxUpdatesPerSecond > 0`; if `p.workersCount <= 1` launch one worker
on the (possibly throttled) inbound channel, else launch `workersCount`
workers each on a fresh `points.NewChannel(32)` plus one shuffler feeding
them from the inbound channel. Both fields are Go `int`, modelled as `Int`. -/
def startLayout (workersCount maxUpdatesPerSecond : Int) : StartLayout :=
  let throttled := decide (0 < maxUpdatesPerSecond)
  if workersCount ≤ 1 then
    { throttleWrapped := throttled
      workerCount := 1
      workersOnPrivateQueues := false
      hasShuffler := false
      soloWorkerOnInbound := true }
  else
    { throttleWrapped := throttled
      workerCount := workersCount.toNat
      workersOnPrivateQueues := true
      hasShuffler := true
      soloWorkerOnInbound := false }

/-! Concrete environments used by the witnesses. -/

/-- An environment in which `Open` succeeds and `UpdateMany` panics. -/
def envOpenOkPanic : StoreEnv :=
  { openOk := true, schemaMatch := false, aggrMatch := false, mkdirOk := false
    createOk := false, updatePanics := true }

/-- An environment in which `Open` succeeds and `UpdateMany` returns. -/
def envOpenOk : StoreEnv :=
  { openOk := true, schemaMatch := true, aggrMatch := true, mkdirOk := true
    createOk := true, updatePanics := false }

/-- An environment in which `Open` fails and no storage schema matches. -/
def envMissingSchema : StoreEnv :=
  { openOk := false, schemaMatch := false, aggrMatch := true, mkdirOk := true
    createOk := true, updatePanics := false }

/-- An environment in which `Open` fails, both policies match, and directory
and file creation succeed. -/
def envCreatePath : StoreEnv :=
  { openOk := false, schemaMatch := true, aggrMatch := true, mkdirOk := true
    createOk := true, updatePanics := false }

/-!
## Theorems
-/

/-- Claim C1: for every metric name `m` and worker count `N > 1`, the
shuffler's shard selection returns `crc32-IEEE(bytes of m) mod N`, a valid
worker index below `N`; the selection is a pure function of `m` and `N`, so
repeated selections for the same metric and worker count coincide and every
batch for one metric goes to the same worker queue. -/
theorem shufflerIndex_eq_crc32_mod (m : String) (N : Nat) (hN : 1 < N) :
    shufflerIndex m N = checksumIEEE (stringBytes m) % N ∧ shufflerIndex m N < N :=
  ⟨rfl, Nat.mod_lt _ (by omega)⟩

/-- Witness for claim C1 at metric "foo" and three workers. -/
theorem shufflerIndex_eq_crc32_mod_witness :
    1 < 3 ∧ (shufflerIndex "foo" 3 = checksumIEEE (stringBytes "foo") % 3 ∧
      shufflerIndex "foo" 3 < 3) :=
  ⟨by decide, shufflerIndex_eq_crc32_mod "foo" 3 (by decide)⟩

/-- Claim C2: when `Open` fails and the storage schema or the aggregation
policy does not match, `store` performs no file operation after the failed
open — its trace is exactly the open call — and leaves `updateOperations`,
`commitedPoints` and `created` unchanged. -/
theorem store_missing_policy_no_ops (env : StoreEnv) (len : Nat)
    (hOpen : env.openOk = false)
    (hPol : env.schemaMatch = false ∨ env.aggrMatch = false) :
    (store env len).1 = [StoreEvent.openCall] ∧
    fileOpCount (store env len).1 = 0 ∧
    updateOperationsDelta (store env len).1 = 0 ∧
    commitedPointsDelta (store env len).1 = 0 ∧
    createdDelta (store env len).1 = 0 := by
  obtain ⟨o, s, a, mk, cr, up⟩ := env
  simp only at hOpen hPol
  subst hOpen
  rcases hPol with h | h
  · subst h
    simp [store, fileOpCount, countMkdir, countCreate, countAppend,
      updateOperationsDelta, commitedPointsDelta, createdDelta]
  · subst h
    cases s <;>
      simp [store, fileOpCount, countMkdir, countCreate, countAppend,
        updateOperationsDelta, commitedPointsDelta, createdDelta]

/-- Witness for claim C2: missing storage schema, batch of five points. -/
theorem store_missing_policy_no_ops_witness :
    (store envMissingSchema 5).1 = [StoreEvent.openCall] ∧
    fileOpCount (store envMissingSchema 5).1 = 0 ∧
    updateOperationsDelta (store envMissingSchema 5).1 = 0 ∧
    commitedPointsDelta (store envMissingSchema 5).1 = 0 ∧
    createdDelta (store envMissingSchema 5).1 = 0 :=
  store_missing_policy_no_ops envMissingSchema 5 rfl (Or.inl rfl)

/-- Claim C3: whenever `store` obtains a backing-file handle it performs
exactly one append call, increments `updateOperations` by exactly 1 and
`commitedPoints` by exactly the batch length, and both increments already
appear in the trace prefix strictly before the append call — hence they
happen whether or not the append panics. -/
theorem store_increments_before_append (env : StoreEnv) (len : Nat)
    (h : handleObtained env = true) :
    countAppend (store env len).1 = 1 ∧
    updateOperationsDelta (beforeAppend (store env len).1) = 1 ∧
    commitedPointsDelta (beforeAppend (store env len).1) = len ∧
    updateOperationsDelta (store env len).1 = 1 ∧
    commitedPointsDelta (store env len).1 = len := by
  obtain ⟨o, s, a, mk, cr, up⟩ := env
  cases o <;> cases s <;> cases a <;> cases mk <;> cases cr <;> cases up <;>
    simp_all [handleObtained, store, appendSection, runDefers, beforeAppend,
      isAppend, countAppend, updateOperationsDelta, commitedPointsDelta]

/-- Witness for claim C3: the panicking-append environment, batch of
three points. -/
theorem store_increments_before_append_witness :
    countAppend (store envOpenOkPanic 3).1 = 1 ∧
    updateOperationsDelta (beforeAppend (store envOpenOkPanic 3).1) = 1 ∧
    commitedPointsDelta (beforeAppend (store envOpenOkPanic 3).1) = 3 ∧
    updateOperationsDelta (store envOpenOkPanic 3).1 = 1 ∧
    commitedPointsDelta (store envOpenOkPanic 3).1 = 3 :=
  store_increments_before_append envOpenOkPanic 3 rfl

/-- Claim C4: a batch whose file is missing but whose storage and
aggregation policies resolve (and whose directory and file creation
succeed) triggers exactly one create call and increments `created` by
exactly 1; a later batch whose open succeeds triggers no create call and
leaves `created` unchanged. -/
theorem store_creates_once (env envSecond : StoreEnv) (len lenSecond : Nat)
    (hOpen : env.openOk = false) (hs : env.schemaMatch = true)
    (ha : env.aggrMatch = true) (hm : env.mkdirOk = true)
    (hc : env.createOk = true) (hOpenSecond : envSecond.openOk = true) :
    countCreate (store env len).1 = 1 ∧
    createdDelta (store env len).1 = 1 ∧
    countCreate (store envSecond lenSecond).1 = 0 ∧
    createdDelta (store envSecond lenSecond).1 = 0 := by
  obtain ⟨o, s, a, mk, cr, up⟩ := env
  obtain ⟨o2, s2, a2, mk2, cr2, up2⟩ := envSecond
  simp only at hOpen hs ha hm hc hOpenSecond
  subst hOpen hs ha hm hc hOpenSecond
  cases up <;> cases up2 <;>
    simp [store, appendSection, runDefers, countCreate, createdDelta]

/-- Witness for claim C4: creation path then open-succeeds path. -/
theorem store_creates_once_witness :
    countCreate (store envCreatePath 2).1 = 1 ∧
    createdDelta (store envCreatePath 2).1 = 1 ∧
    countCreate (store envOpenOk 4).1 = 0 ∧
    createdDelta (store envOpenOk 4).1 = 0 :=
  store_creates_once envCreatePath envOpenOk 2 4 rfl rfl rfl rfl rfl rfl

/-- Claim C5: a panic raised by `UpdateMany` never escapes `store` — the
deferred recover stops it — and on every exit path on which a handle was
obtained, including the panicking one, the handle is closed exactly once and
the close is the last action before `store` returns. -/
theorem store_contains_panic_and_closes (env : StoreEnv) (len : Nat) :
    (store env len).2 = false ∧
    (handleObtained env = true →
      countClose (store env len).1 = 1 ∧
      lastEvent (store env len).1 = some StoreEvent.closeCall) := by
  obtain ⟨o, s, a, mk, cr, up⟩ := env
  cases o <;> cases s <;> cases a <;> cases mk <;> cases cr <;> cases up <;>
    simp [handleObtained, store, appendSection, runDefers, countClose, lastEvent]

/-- Witness for claim C5: the panicking-append environment. -/
theorem store_contains_panic_and_closes_witness :
    (store envOpenOkPanic 3).2 = false ∧
    (countClose (store envOpenOkPanic 3).1 = 1 ∧
      lastEvent (store envOpenOkPanic 3).1 = some StoreEvent.closeCall) :=
  ⟨(store_contains_panic_and_closes envOpenOkPanic 3).1,
   (store_contains_panic_and_closes envOpenOkPanic 3).2 rfl⟩

/-- Claim C6 (refuted by the code): after `Stop` closes the exit channel the
exit case of the worker's select is permanently ready, but its `break`
terminates only the `select`, not the `for` loop, so the loop does not exit:
on the admissible schedule that picks the exit case and then receives a
pending batch, the worker stores one further batch instead of terminating. -/
theorem worker_loop_survives_exit_signal :
    breakInSelectExitsFor = false ∧
    workerRun [WorkerCase.exitReady, WorkerCase.recv] = 1 ∧
    workerRun [WorkerCase.exitReady] = 0 := by
  refine ⟨rfl, rfl, rfl⟩

/-- Claim C7: the checkpoint emits `pointsPerUpdate` as
`commitedPoints / updateOperations` exactly when `updateOperations > 0` and
as 0 when `updateOperations = 0`, so the dividing branch never has a zero
divisor; at `updateOperations = 4, commitedPoints = 40` it reports 10. -/
theorem doCheckpoint_pointsPerUpdate_guarded (uo cp created : Nat) :
    ("pointsPerUpdate", pointsPerUpdate uo cp) ∈ doCheckpointStats uo cp created ∧
    (0 < uo → pointsPerUpdate uo cp = (cp : Rat) / (uo : Rat)) ∧
    pointsPerUpdate 0 cp = 0 ∧
    pointsPerUpdate 4 40 = 10 := by
  refine ⟨by simp [doCheckpointStats], fun h => ?_, ?_, ?_⟩
  · simp [pointsPerUpdate, h]
  · simp [pointsPerUpdate]
  · norm_num [pointsPerUpdate]

/-- Witness for claim C7 at `updateOperations = 4, commitedPoints = 40`. -/
theorem doCheckpoint_pointsPerUpdate_guarded_witness :
    ("pointsPerUpdate", pointsPerUpdate 4 40) ∈ doCheckpointStats 4 40 7 ∧
    pointsPerUpdate 4 40 = ((40 : Nat) : Rat) / ((4 : Nat) : Rat) :=
  ⟨(doCheckpoint_pointsPerUpdate_guarded 4 40 7).1,
   (doCheckpoint_pointsPerUpdate_guarded 4 40 7).2.1 (by decide)⟩

/-- Claim C8: the backing-file path is the root path joined with the metric
name in which every "." is replaced by the path separator, with ".wsp"
appended; shown with a concrete all-dots example. -/
theorem storePath_shape (root metric : String) :
    storePath root metric = root ++ "/" ++ (replaceDots metric ++ ".wsp") ∧
    replaceDots "carbon.agents.host.ok" = "carbon/agents/host/ok" := by
  exact ⟨rfl, rfl⟩

/-- Claim C9 counterexample: with `maxUpdatesPerSecond = -1` (a nonzero Go
int) `Start` does not insert the throttle adapter, refuting "wraps exactly
when the configured maximum updates per second is nonzero". -/
theorem start_throttle_nonzero_refuted :
    ¬ (((startLayout 1 (-1)).throttleWrapped = true) ↔ ((-1 : Int) ≠ 0)) := by
  decide

/-- Claim C9 (amended): `Start` wraps the inbound queue with the throttle
adapter exactly when `maxUpdatesPerSecond` is positive; with worker count
at most 1 it launches a solo worker on the (possibly throttled) inbound
queue and no shuffler, and with worker count `W > 1` it launches `W` workers
on private queues plus one shuffler. -/
theorem start_layout_by_config (W R : Int) :
    ((startLayout W R).throttleWrapped = true ↔ 0 < R) ∧
    (W ≤ 1 →
      (startLayout W R).soloWorkerOnInbound = true ∧
      (startLayout W R).hasShuffler = false ∧
      (startLayout W R).workerCount = 1 ∧
      (startLayout W R).workersOnPrivateQueues = false) ∧
    (1 < W →
      (startLayout W R).hasShuffler = true ∧
      (startLayout W R).workerCount = W.toNat ∧
      (startLayout W R).workersOnPrivateQueues = true ∧
      (startLayout W R).soloWorkerOnInbound = false) := by
  refine ⟨?_, fun h => ?_, fun h => ?_⟩
  · simp [startLayout]
    split <;> simp
  · simp [startLayout, h]
  · have h2 : ¬ (W ≤ 1) := by omega
    simp [startLayout, h2]

/-- Witness for claim C9 (amended) at worker count 2 and rate 5, and at
worker count 1 and rate 0. -/
theorem start_layout_by_config_witness :
    ((startLayout 2 5).throttleWrapped = true ↔ (0 : Int) < 5) ∧
    ((startLayout 2 5).hasShuffler = true ∧
      (startLayout 2 5).workerCount = (2 : Int).toNat ∧
      (startLayout 2 5).workersOnPrivateQueues = true ∧
      (startLayout 2 5).soloWorkerOnInbound = false) ∧
    ((startLayout 1 0).soloWorkerOnInbound = true ∧
      (startLayout 1 0).hasShuffler = false ∧
      (startLayout 1 0).workerCount = 1 ∧
      (startLayout 1 0).workersOnPrivateQueues = false) :=
  ⟨(start_layout_by_config 2 5).1,
   (start_layout_by_config 2 5).2.2 (by decide),
   (start_layout_by_config 1 0).2.1 (by decide)⟩

/-- Claim C10: every stat point emitted via `Stat` is a single point whose
metric name is the graph prefix, then the fixed infix "persister.", then the
counter name, whose value is the given value, and whose timestamp is the
clock's Unix-seconds reading at emission. -/
theorem stat_emits_one_prefixed_point (g m : String) (v : Rat) (now : Int) :
    Stat g m v now =
      [{ metric := g ++ "persister." ++ m, value := v, timestamp := now }] :=
  rfl

end Persister
end GoCarbon


